import Mathlib

/-!
Verification of the single-instance process supervisor embedded in
`distro/src/bin/atlas_start.py` (function `main` and the `__main__` block).

The script checks a PID file for an already-running server instance, launches
the Java server process when it is safe to do so, and records the new process
identifier in the PID file.  The helper module `atlas_config` (imported as
`mc`) is not part of the sources; its operations around the PID check and
launch are modelled from the specification and marked as such below.
-/

namespace AtlasStart

/-- Whitespace characters removed by Python `str.strip()`; used on the
PID-file content (`pid = pf.read().strip()`, atlas_start.py line 78). -/
def pyWS (c : Char) : Bool :=
  c = ' ' || c = '\t' || c = '\n' || c = '\r' || c = '\x0b' || c = '\x0c'

/-- Strip `pyWS` characters from both ends of a character list. -/
def stripList (l : List Char) : List Char :=
  (l.dropWhile pyWS).rdropWhile pyWS

/-- Python `str.strip()` on strings. -/
def pyStrip (s : String) : String :=
  ⟨stripList s.data⟩

/-- Value of a pure digit sequence, accumulator style; `none` when a
non-digit appears. -/
def digitsVal : List Char → Nat → Option Nat
  | [], acc => some acc
  | c :: rest, acc =>
    if c.isDigit then digitsVal rest (acc * 10 + (c.toNat - '0'.toNat))
    else none

/-- Python `int()` applied to an already-stripped string, as in
`(int)(pid)` at atlas_start.py line 84: an optional sign followed by at
least one decimal digit; anything else raises `ValueError` (here `none`). -/
def pyInt (s : String) : Option Int :=
  match s.data with
  | [] => none
  | '+' :: rest =>
    if rest = [] then none else (digitsVal rest 0).map Int.ofNat
  | '-' :: rest =>
    if rest = [] then none else (digitsVal rest 0).map (fun n => -(n : Int))
  | l => (digitsVal l 0).map Int.ofNat

/-- The durable state the supervisor touches: whether the PID-file path is an
existing file (`os.path.isfile`, line 75) and the file's content. -/
structure FS where
  pidFileIsFile : Bool
  pidFileContent : String
deriving DecidableEq

/-- The three platform cases distinguished at lines 82, 91 and 98:
`mc.ON_POSIX`, `mc.IS_WINDOWS`, and everything else. -/
inductive Platform
  | posix
  | windows
  | other
deriving DecidableEq

/-- Modelled from the spec: the behaviour of the missing `atlas_config`
module (`mc`) around the PID check and the launch.
`unixLive` models `mc.unix_exist_pid` (signal-probe liveness on POSIX,
applied to the parsed integer); `winLive` models `mc.win_exist_pid`
(process-table lookup on Windows, applied to the raw stripped string);
`javaResult` models `mc.java` (the identifier of the newly created process,
`none` when process creation fails); `writeOk` tells whether `mc.writePid`
can durably write the PID file. -/
structure Sys where
  platform : Platform
  unixLive : Int → Bool
  winLive : String → Bool
  javaResult : Option Nat
  writeOk : Bool

/-- Result of the existing-instance check (spec operation `checkExisting`,
inlined at atlas_start.py lines 75-99).  `CorruptRecord` stands for the
`ValueError` raised by `int(pid)` when the stripped content does not parse. -/
inductive Status
  | NoRecord
  | Running (pid : String)
  | Stale (pid : String)
  | CorruptRecord
deriving DecidableEq

/-- Terminal outcome of one invocation, named after the spec's taxonomy.
`Refused` is `mc.server_already_running`; `CorruptRecord`, `LaunchFailed`
and `PersistFailed` are the exceptions escaping from `int(pid)`, `mc.java`
and `mc.writePid` respectively, all caught by the `__main__` handler. -/
inductive Outcome
  | Recorded (pid : Nat)
  | Refused (pid : String)
  | CorruptRecord
  | LaunchFailed
  | PersistFailed
deriving DecidableEq

/-- Opening the PID file for reading and reading it (lines 77-79) yields the
content and leaves the filesystem state as it was. -/
def readFile (fs : FS) : String × FS :=
  (fs.pidFileContent, fs)

/-- Modelled from the spec: `mc.writePid` leaves the PID file containing the
decimal identifier of the new process as its single line, replacing any
prior content. -/
def writePid (_fs : FS) (pid : Nat) : FS :=
  { pidFileIsFile := true, pidFileContent := toString pid }

/-- The existing-instance check of atlas_start.py lines 75-99.  On POSIX the
stripped content is parsed with `int` and probed with `mc.unix_exist_pid`;
on Windows the raw stripped string goes to `mc.win_exist_pid` without
parsing; on any other platform the record is conservatively treated as a
running instance. -/
def checkExisting (s : Sys) (fs : FS) : Status × FS :=
  if fs.pidFileIsFile then
    let r := readFile fs
    let pid := pyStrip r.1
    match s.platform with
    | .posix =>
      match pyInt pid with
      | none => (.CorruptRecord, r.2)
      | some n =>
        if s.unixLive n then (.Running pid, r.2) else (.Stale pid, r.2)
    | .windows =>
      if s.winLive pid then (.Running pid, r.2) else (.Stale pid, r.2)
    | .other => (.Running pid, r.2)
  else (.NoRecord, fs)

/-- Everything one invocation leaves behind: the terminal outcome, the final
filesystem state, whether `mc.java` was ever invoked, and the lines printed
on the way. -/
structure RunResult where
  outcome : Outcome
  fs : FS
  launched : Bool
  msgs : List String
deriving DecidableEq

/-- Modelled from the spec: the human-readable refusal message printed by
`mc.server_already_running`, surfacing the recorded pid to the caller. -/
def alreadyRunningMsg (pid : String) : String :=
  "Apache Atlas server is already running under process " ++ pid

/-- Modelled from the spec: the message printed by
`mc.server_pid_not_running` before a stale record is reclaimed. -/
def staleRecordMsg (pid : String) : String :=
  "Process " ++ pid ++ " recorded in the PID file is no longer running"

/-- The success message printed at atlas_start.py line 109. -/
def startedMsg : String :=
  "Apache Atlas Server started!!!\n"

/-- The line printed by the top-level exception handler
(`print "Exception: %s " % str(e)`, atlas_start.py line 114). -/
def excMsg (what : String) : String :=
  "Exception: " ++ what

/-- The launch phase, atlas_start.py lines 103-109: `mc.java` creates the
process, `mc.writePid` records its identifier, then the success line is
printed.  A failure in either step raises and reaches the `__main__`
handler. -/
def launchPhase (s : Sys) (fs : FS) : RunResult :=
  match s.javaResult with
  | none => ⟨.LaunchFailed, fs, true, [excMsg "could not create the server process"]⟩
  | some p =>
    if s.writeOk then ⟨.Recorded p, writePid fs p, true, [startedMsg]⟩
    else ⟨.PersistFailed, fs, true, [excMsg "could not write the PID file"]⟩

/-- One invocation of the supervisor: the PID check of lines 75-99 followed,
when no running instance was found, by the launch of lines 103-109. -/
def mainRun (s : Sys) (fs : FS) : RunResult :=
  match checkExisting s fs with
  | (.NoRecord, fs1) => launchPhase s fs1
  | (.Stale pid, fs1) =>
    let r := launchPhase s fs1
    { r with msgs := staleRecordMsg pid :: r.msgs }
  | (.Running pid, fs1) => ⟨.Refused pid, fs1, false, [alreadyRunningMsg pid]⟩
  | (.CorruptRecord, fs1) =>
    ⟨.CorruptRecord, fs1, false, [excMsg "invalid literal for int()"]⟩

/-- Process exit status of the script.  `main` returning normally makes
`sys.exit(None)` report status 0; an exception makes `__main__` exit with
-1 (lines 111-119).  The `Refused` status is modelled from the spec:
`mc.server_already_running` terminates the invocation with a non-zero
status. -/
def exitCode : Outcome → Int
  | .Recorded _ => 0
  | .Refused _ => 1
  | .CorruptRecord => -1
  | .LaunchFailed => -1
  | .PersistFailed => -1

end AtlasStart

namespace AtlasStart

/-- Dropping leading `pyWS` characters twice is the same as dropping them
once. -/
lemma stripList_idem (l : List Char) : stripList (stripList l) = stripList l := by
  unfold stripList
  set m := l.dropWhile pyWS with hm
  have hm_self : m.dropWhile pyWS = m := List.dropWhile_idempotent pyWS l
  have hpre : m.rdropWhile pyWS <+: m := List.rdropWhile_prefix pyWS m
  have hfix : (m.rdropWhile pyWS).dropWhile pyWS = m.rdropWhile pyWS := by
    rcases hpre with ⟨t, ht⟩
    cases hx : m.rdropWhile pyWS with
    | nil => simp
    | cons a t2 =>
      have hmeq : m = a :: (t2 ++ t) := by
        rw [← ht, hx]
        simp
      have hpa : pyWS a = false := by
        by_contra hpa
        rw [Bool.not_eq_false] at hpa
        have hms := hm_self
        rw [hmeq, List.dropWhile_cons, if_pos hpa] at hms
        have hlen := congrArg List.length hms
        have hle := (List.dropWhile_sublist (l := t2 ++ t) pyWS).length_le
        simp only [List.length_cons, List.length_append] at hlen hle
        omega
      simp [List.dropWhile_cons, hpa]
  rw [hfix, List.rdropWhile_idempotent]

/-- `pyStrip` is idempotent. -/
lemma pyStrip_idem (s : String) : pyStrip (pyStrip s) = pyStrip s := by
  unfold pyStrip
  exact congrArg String.mk (stripList_idem s.data)

/-- The check of lines 75-99 only ever reads the PID file: the filesystem
state it returns is the one it was given. -/
lemma checkExisting_snd (s : Sys) (fs : FS) : (checkExisting s fs).2 = fs := by
  cases hb : fs.pidFileIsFile with
  | false => simp [checkExisting, hb]
  | true =>
    cases hpl : s.platform with
    | posix =>
      cases hpi : pyInt (pyStrip fs.pidFileContent) with
      | none => simp [checkExisting, readFile, hb, hpl, hpi]
      | some n =>
        cases hul : s.unixLive n <;>
          simp [checkExisting, readFile, hb, hpl, hpi, hul]
    | windows =>
      cases hwl : s.winLive (pyStrip fs.pidFileContent) <;>
        simp [checkExisting, readFile, hb, hpl, hwl]
    | other => simp [checkExisting, readFile, hb, hpl]

/-- C1: when the PID file exists and holds the identifier of a
currently-live process (parsed and signal-probed on POSIX, looked up in the
process table on Windows), `checkExisting` returns `Running` with that
identifier and the invocation terminates in the `Refused` state: no launch
is attempted and the PID file is left exactly as it was. -/
theorem c1_live_pid_refused (s : Sys) (fs : FS)
    (hex : fs.pidFileIsFile = true)
    (hlive : (s.platform = .posix
                ∧ ∃ n, pyInt (pyStrip fs.pidFileContent) = some n
                       ∧ s.unixLive n = true)
           ∨ (s.platform = .windows
                ∧ s.winLive (pyStrip fs.pidFileContent) = true)) :
    checkExisting s fs = (.Running (pyStrip fs.pidFileContent), fs)
    ∧ mainRun s fs = ⟨.Refused (pyStrip fs.pidFileContent), fs, false,
        [alreadyRunningMsg (pyStrip fs.pidFileContent)]⟩ := by
  have hc : checkExisting s fs = (.Running (pyStrip fs.pidFileContent), fs) := by
    rcases hlive with ⟨hp, n, hn, hl⟩ | ⟨hp, hl⟩
    · simp [checkExisting, readFile, hex, hp, hn, hl]
    · simp [checkExisting, readFile, hex, hp, hl]
  exact ⟨hc, by simp [mainRun, hc]⟩

/-- C1 witness: a live pid 42 (with surrounding whitespace in the file) on
POSIX is refused. -/
theorem c1_live_pid_refused_witness :
    (FS.mk true " 42\n").pidFileIsFile = true
    ∧ ((Sys.mk .posix (fun _ => true) (fun _ => true) (some 7) true).platform = .posix
        ∧ ∃ n, pyInt (pyStrip (FS.mk true " 42\n").pidFileContent) = some n
             ∧ (Sys.mk .posix (fun _ => true) (fun _ => true) (some 7) true).unixLive n = true)
    ∧ (checkExisting (Sys.mk .posix (fun _ => true) (fun _ => true) (some 7) true)
          (FS.mk true " 42\n")
        = (.Running (pyStrip (FS.mk true " 42\n").pidFileContent), FS.mk true " 42\n")
       ∧ mainRun (Sys.mk .posix (fun _ => true) (fun _ => true) (some 7) true)
          (FS.mk true " 42\n")
        = ⟨.Refused (pyStrip (FS.mk true " 42\n").pidFileContent), FS.mk true " 42\n", false,
            [alreadyRunningMsg (pyStrip (FS.mk true " 42\n").pidFileContent)]⟩) :=
  ⟨rfl, ⟨rfl, 42, by decide, rfl⟩,
   c1_live_pid_refused _ _ rfl (Or.inl ⟨rfl, 42, by decide, rfl⟩)⟩

/-- C2 counterexample: the claim fails at three concrete inputs, none of
which yields `CorruptRecord`.  On POSIX the parseable but non-positive
content "0" is classified `Stale` when the probe reports it dead, and a
launch is then attempted; on Windows the unparseable "abc" is never parsed
and is classified `Stale` by the process-table lookup; on a platform that
is neither, "abc" is reported `Running`. -/
theorem c2_corrupt_counterexample :
    (pyInt (pyStrip "0") = some 0
     ∧ (checkExisting ⟨.posix, fun _ => false, fun _ => false, some 7, true⟩
         ⟨true, "0"⟩).1 = .Stale "0"
     ∧ Status.Stale "0" ≠ Status.CorruptRecord
     ∧ (mainRun ⟨.posix, fun _ => false, fun _ => false, some 7, true⟩
         ⟨true, "0"⟩).launched = true)
    ∧ (pyInt (pyStrip "abc") = none
     ∧ (checkExisting ⟨.windows, fun _ => false, fun _ => false, some 7, true⟩
         ⟨true, "abc"⟩).1 = .Stale "abc"
     ∧ Status.Stale "abc" ≠ Status.CorruptRecord
     ∧ (checkExisting ⟨.other, fun _ => false, fun _ => false, none, false⟩
         ⟨true, "abc"⟩).1 = .Running "abc"
     ∧ Status.Running "abc" ≠ Status.CorruptRecord) :=
  ⟨⟨by decide, by decide, by decide, by decide⟩,
   ⟨by decide, by decide, by decide, by decide, by decide⟩⟩

/-- C2 (amended): for every existing PID file, the classification is: on
POSIX, a stripped content `int()` cannot parse ends the invocation as
`CorruptRecord` (the `ValueError`) with no launch attempted, while a
content parsing to any integer -- positive or not, e.g. "0" -- is instead
probed for liveness: live gives `Running` with no launch, dead gives
`Stale` followed by a launch attempt.  On Windows the content is never
parsed: the raw stripped string goes to the process-table lookup with the
same `Running`/`Stale` consequences.  On a platform that is neither, the
record is reported `Running` and no launch occurs. -/
theorem c2_amended_check_classification (s : Sys) (fs : FS)
    (hex : fs.pidFileIsFile = true) :
    (s.platform = .posix → pyInt (pyStrip fs.pidFileContent) = none →
       checkExisting s fs = (.CorruptRecord, fs)
       ∧ mainRun s fs
           = ⟨.CorruptRecord, fs, false, [excMsg "invalid literal for int()"]⟩)
    ∧ (s.platform = .posix → ∀ n, pyInt (pyStrip fs.pidFileContent) = some n →
        (s.unixLive n = true →
          (checkExisting s fs).1 = .Running (pyStrip fs.pidFileContent)
          ∧ (mainRun s fs).launched = false)
        ∧ (s.unixLive n = false →
          (checkExisting s fs).1 = .Stale (pyStrip fs.pidFileContent)
          ∧ (mainRun s fs).launched = true))
    ∧ (s.platform = .windows →
        (s.winLive (pyStrip fs.pidFileContent) = true →
          (checkExisting s fs).1 = .Running (pyStrip fs.pidFileContent)
          ∧ (mainRun s fs).launched = false)
        ∧ (s.winLive (pyStrip fs.pidFileContent) = false →
          (checkExisting s fs).1 = .Stale (pyStrip fs.pidFileContent)
          ∧ (mainRun s fs).launched = true))
    ∧ (s.platform = .other →
        (checkExisting s fs).1 = .Running (pyStrip fs.pidFileContent)
        ∧ (mainRun s fs).launched = false) := by
  refine ⟨?_, ?_, ?_, ?_⟩
  · intro hp hparse
    have hc : checkExisting s fs = (.CorruptRecord, fs) := by
      simp [checkExisting, readFile, hex, hp, hparse]
    exact ⟨hc, by simp [mainRun, hc]⟩
  · intro hp n hn
    constructor
    · intro hul
      have hc : checkExisting s fs = (.Running (pyStrip fs.pidFileContent), fs) := by
        simp [checkExisting, readFile, hex, hp, hn, hul]
      exact ⟨by simp [hc], by simp [mainRun, hc]⟩
    · intro hul
      have hc : checkExisting s fs = (.Stale (pyStrip fs.pidFileContent), fs) := by
        simp [checkExisting, readFile, hex, hp, hn, hul]
      refine ⟨by simp [hc], ?_⟩
      cases hj : s.javaResult with
      | none => simp [mainRun, hc, launchPhase, hj]
      | some q => cases hw : s.writeOk <;> simp [mainRun, hc, launchPhase, hj, hw]
  · intro hp
    constructor
    · intro hwl
      have hc : checkExisting s fs = (.Running (pyStrip fs.pidFileContent), fs) := by
        simp [checkExisting, readFile, hex, hp, hwl]
      exact ⟨by simp [hc], by simp [mainRun, hc]⟩
    · intro hwl
      have hc : checkExisting s fs = (.Stale (pyStrip fs.pidFileContent), fs) := by
        simp [checkExisting, readFile, hex, hp, hwl]
      refine ⟨by simp [hc], ?_⟩
      cases hj : s.javaResult with
      | none => simp [mainRun, hc, launchPhase, hj]
      | some q => cases hw : s.writeOk <;> simp [mainRun, hc, launchPhase, hj, hw]
  · intro hp
    have hc : checkExisting s fs = (.Running (pyStrip fs.pidFileContent), fs) := by
      simp [checkExisting, readFile, hex, hp]
    exact ⟨by simp [hc], by simp [mainRun, hc]⟩

/-- C2 witness: the amended classification applied to the PID file
containing "0" on a POSIX system whose probe reports every pid dead. -/
theorem c2_amended_check_classification_witness :
    (FS.mk true "0").pidFileIsFile = true
    ∧ (((Sys.mk .posix (fun _ => false) (fun _ => false) (some 7) true).platform = .posix →
          pyInt (pyStrip (FS.mk true "0").pidFileContent) = none →
          checkExisting (Sys.mk .posix (fun _ => false) (fun _ => false) (some 7) true)
              (FS.mk true "0")
            = (.CorruptRecord, FS.mk true "0")
          ∧ mainRun (Sys.mk .posix (fun _ => false) (fun _ => false) (some 7) true)
              (FS.mk true "0")
            = ⟨.CorruptRecord, FS.mk true "0", false, [excMsg "invalid literal for int()"]⟩)
       ∧ ((Sys.mk .posix (fun _ => false) (fun _ => false) (some 7) true).platform = .posix →
          ∀ n, pyInt (pyStrip (FS.mk true "0").pidFileContent) = some n →
            ((Sys.mk .posix (fun _ => false) (fun _ => false) (some 7) true).unixLive n = true →
              (checkExisting (Sys.mk .posix (fun _ => false) (fun _ => false) (some 7) true)
                  (FS.mk true "0")).1 = .Running (pyStrip (FS.mk true "0").pidFileContent)
              ∧ (mainRun (Sys.mk .posix (fun _ => false) (fun _ => false) (some 7) true)
                  (FS.mk true "0")).launched = false)
            ∧ ((Sys.mk .posix (fun _ => false) (fun _ => false) (some 7) true).unixLive n = false →
              (checkExisting (Sys.mk .posix (fun _ => false) (fun _ => false) (some 7) true)
                  (FS.mk true "0")).1 = .Stale (pyStrip (FS.mk true "0").pidFileContent)
              ∧ (mainRun (Sys.mk .posix (fun _ => false) (fun _ => false) (some 7) true)
                  (FS.mk true "0")).launched = true))
       ∧ ((Sys.mk .posix (fun _ => false) (fun _ => false) (some 7) true).platform = .windows →
            ((Sys.mk .posix (fun _ => false) (fun _ => false) (some 7) true).winLive
                (pyStrip (FS.mk true "0").pidFileContent) = true →
              (checkExisting (Sys.mk .posix (fun _ => false) (fun _ => false) (some 7) true)
                  (FS.mk true "0")).1 = .Running (pyStrip (FS.mk true "0").pidFileContent)
              ∧ (mainRun (Sys.mk .posix (fun _ => false) (fun _ => false) (some 7) true)
                  (FS.mk true "0")).launched = false)
            ∧ ((Sys.mk .posix (fun _ => false) (fun _ => false) (some 7) true).winLive
                (pyStrip (FS.mk true "0").pidFileContent) = false →
              (checkExisting (Sys.mk .posix (fun _ => false) (fun _ => false) (some 7) true)
                  (FS.mk true "0")).1 = .Stale (pyStrip (FS.mk true "0").pidFileContent)
              ∧ (mainRun (Sys.mk .posix (fun _ => false) (fun _ => false) (some 7) true)
                  (FS.mk true "0")).launched = true))
       ∧ ((Sys.mk .posix (fun _ => false) (fun _ => false) (some 7) true).platform = .other →
            (checkExisting (Sys.mk .posix (fun _ => false) (fun _ => false) (some 7) true)
                (FS.mk true "0")).1 = .Running (pyStrip (FS.mk true "0").pidFileContent)
            ∧ (mainRun (Sys.mk .posix (fun _ => false) (fun _ => false) (some 7) true)
                (FS.mk true "0")).launched = false)) :=
  ⟨rfl, c2_amended_check_classification _ _ rfl⟩

/-- C3: whenever the invocation ends in the successful `Recorded` outcome,
the PID file afterwards exists and contains exactly the decimal rendering of
the new process identifier, whatever its prior state was. -/
theorem c3_recorded_pid_file (s : Sys) (fs : FS) (p : Nat)
    (h : (mainRun s fs).outcome = .Recorded p) :
    (mainRun s fs).fs = ⟨true, toString p⟩ := by
  unfold mainRun at h ⊢
  rcases hc : checkExisting s fs with ⟨st, fs1⟩
  rw [hc] at h
  cases st with
  | NoRecord =>
    cases hj : s.javaResult with
    | none => simp [launchPhase, hj] at h
    | some q =>
      cases hw : s.writeOk with
      | false => simp [launchPhase, hj, hw] at h
      | true =>
        simp [launchPhase, hj, hw] at h ⊢
        simp [writePid, h]
  | Stale pid =>
    cases hj : s.javaResult with
    | none => simp [launchPhase, hj] at h
    | some q =>
      cases hw : s.writeOk with
      | false => simp [launchPhase, hj, hw] at h
      | true =>
        simp [launchPhase, hj, hw] at h ⊢
        simp [writePid, h]
  | Running pid => simp at h
  | CorruptRecord => simp at h

/-- C3 witness: launching with new pid 7 from an absent PID file leaves the
file containing "7". -/
theorem c3_recorded_pid_file_witness :
    (mainRun (Sys.mk .posix (fun _ => true) (fun _ => true) (some 7) true)
        (FS.mk false "")).outcome = .Recorded 7
    ∧ (mainRun (Sys.mk .posix (fun _ => true) (fun _ => true) (some 7) true)
        (FS.mk false "")).fs = ⟨true, toString 7⟩ :=
  ⟨by decide, c3_recorded_pid_file _ _ 7 (by decide)⟩

/-- C4: a PID file recording a terminated process (liveness probe false)
makes `checkExisting` return `Stale` with that identifier; when process
creation and the write then succeed, the invocation ends `Recorded` and the
PID file is overwritten with the new identifier. -/
theorem c4_stale_reclaimed (s : Sys) (fs : FS) (p : Nat)
    (hex : fs.pidFileIsFile = true)
    (hstale : (s.platform = .posix
                 ∧ ∃ n, pyInt (pyStrip fs.pidFileContent) = some n
                        ∧ s.unixLive n = false)
            ∨ (s.platform = .windows
                 ∧ s.winLive (pyStrip fs.pidFileContent) = false))
    (hj : s.javaResult = some p) (hw : s.writeOk = true) :
    checkExisting s fs = (.Stale (pyStrip fs.pidFileContent), fs)
    ∧ (mainRun s fs).outcome = .Recorded p
    ∧ (mainRun s fs).fs = ⟨true, toString p⟩ := by
  have hc : checkExisting s fs = (.Stale (pyStrip fs.pidFileContent), fs) := by
    rcases hstale with ⟨hp, n, hn, hl⟩ | ⟨hp, hl⟩
    · simp [checkExisting, readFile, hex, hp, hn, hl]
    · simp [checkExisting, readFile, hex, hp, hl]
  refine ⟨hc, ?_, ?_⟩ <;> simp [mainRun, hc, launchPhase, hj, hw, writePid]

/-- C4 witness: the scenario of the spec, a dead pid 99999 reclaimed by a
new process 7. -/
theorem c4_stale_reclaimed_witness :
    (FS.mk true "99999").pidFileIsFile = true
    ∧ ((Sys.mk .posix (fun _ => false) (fun _ => false) (some 7) true).platform = .posix
        ∧ ∃ n, pyInt (pyStrip (FS.mk true "99999").pidFileContent) = some n
             ∧ (Sys.mk .posix (fun _ => false) (fun _ => false) (some 7) true).unixLive n = false)
    ∧ (Sys.mk .posix (fun _ => false) (fun _ => false) (some 7) true).javaResult = some 7
    ∧ (Sys.mk .posix (fun _ => false) (fun _ => false) (some 7) true).writeOk = true
    ∧ (checkExisting (Sys.mk .posix (fun _ => false) (fun _ => false) (some 7) true)
          (FS.mk true "99999")
        = (.Stale (pyStrip (FS.mk true "99999").pidFileContent), FS.mk true "99999")
       ∧ (mainRun (Sys.mk .posix (fun _ => false) (fun _ => false) (some 7) true)
          (FS.mk true "99999")).outcome = .Recorded 7
       ∧ (mainRun (Sys.mk .posix (fun _ => false) (fun _ => false) (some 7) true)
          (FS.mk true "99999")).fs = ⟨true, toString 7⟩) :=
  ⟨rfl, ⟨rfl, 99999, by decide, rfl⟩, rfl, rfl,
   c4_stale_reclaimed _ _ 7 rfl (Or.inl ⟨rfl, 99999, by decide, rfl⟩) rfl rfl⟩

/-- C5: on a platform that is neither POSIX nor Windows, an existing PID
file makes `checkExisting` report `Running` with the stripped content,
whatever the liveness oracles say, and the invocation ends `Refused`
without a launch. -/
theorem c5_unsupported_refuses (s : Sys) (fs : FS)
    (hp : s.platform = .other) (hex : fs.pidFileIsFile = true) :
    checkExisting s fs = (.Running (pyStrip fs.pidFileContent), fs)
    ∧ mainRun s fs = ⟨.Refused (pyStrip fs.pidFileContent), fs, false,
        [alreadyRunningMsg (pyStrip fs.pidFileContent)]⟩ := by
  have hc : checkExisting s fs = (.Running (pyStrip fs.pidFileContent), fs) := by
    simp [checkExisting, readFile, hex, hp]
  exact ⟨hc, by simp [mainRun, hc]⟩

/-- C5 witness: an unsupported platform refuses even though the liveness
oracles report the pid dead. -/
theorem c5_unsupported_refuses_witness :
    (Sys.mk .other (fun _ => false) (fun _ => false) none false).platform = .other
    ∧ (FS.mk true "123").pidFileIsFile = true
    ∧ (checkExisting (Sys.mk .other (fun _ => false) (fun _ => false) none false)
          (FS.mk true "123")
        = (.Running (pyStrip (FS.mk true "123").pidFileContent), FS.mk true "123")
       ∧ mainRun (Sys.mk .other (fun _ => false) (fun _ => false) none false)
          (FS.mk true "123")
        = ⟨.Refused (pyStrip (FS.mk true "123").pidFileContent), FS.mk true "123", false,
            [alreadyRunningMsg (pyStrip (FS.mk true "123").pidFileContent)]⟩) :=
  ⟨rfl, rfl, c5_unsupported_refuses _ _ rfl rfl⟩

/-- C6: when the PID-file path is not an existing file, `checkExisting`
returns `NoRecord` and the invocation proceeds directly to the launch
(`mc.java` is invoked). -/
theorem c6_no_record_launches (s : Sys) (fs : FS)
    (hex : fs.pidFileIsFile = false) :
    checkExisting s fs = (.NoRecord, fs) ∧ (mainRun s fs).launched = true := by
  have hc : checkExisting s fs = (.NoRecord, fs) := by
    simp [checkExisting, hex]
  refine ⟨hc, ?_⟩
  cases hj : s.javaResult with
  | none => simp [mainRun, hc, launchPhase, hj]
  | some q => cases hw : s.writeOk <;> simp [mainRun, hc, launchPhase, hj, hw]

/-- C6 witness: an absent PID file leads straight to the launch. -/
theorem c6_no_record_launches_witness :
    (FS.mk false "").pidFileIsFile = false
    ∧ (checkExisting (Sys.mk .posix (fun _ => true) (fun _ => true) (some 7) true)
          (FS.mk false "")
        = (.NoRecord, FS.mk false "")
       ∧ (mainRun (Sys.mk .posix (fun _ => true) (fun _ => true) (some 7) true)
          (FS.mk false "")).launched = true) :=
  ⟨rfl, c6_no_record_launches _ _ rfl⟩

/-- C7: when the subordinate process is created (`mc.java` succeeds) but its
identifier cannot be written, the invocation ends in `PersistFailed`, a
constructor distinct from `LaunchFailed`, and the PID file is left
unchanged — the live process is untracked. -/
theorem c7_persist_failed_distinct (s : Sys) (fs : FS) (p : Nat)
    (hj : s.javaResult = some p) (hw : s.writeOk = false)
    (hl : (mainRun s fs).launched = true) :
    (mainRun s fs).outcome = .PersistFailed
    ∧ (mainRun s fs).fs = fs
    ∧ Outcome.PersistFailed ≠ Outcome.LaunchFailed := by
  have hfs := checkExisting_snd s fs
  rcases hc : checkExisting s fs with ⟨st, fs1⟩
  rw [hc] at hfs
  simp at hfs
  cases st with
  | NoRecord =>
    refine ⟨?_, ?_, by decide⟩ <;> simp [mainRun, hc, launchPhase, hj, hw, hfs]
  | Stale pid =>
    refine ⟨?_, ?_, by decide⟩ <;> simp [mainRun, hc, launchPhase, hj, hw, hfs]
  | Running pid => simp [mainRun, hc] at hl
  | CorruptRecord => simp [mainRun, hc] at hl

/-- C7 witness: process 7 created, write refused: `PersistFailed`, file
unchanged. -/
theorem c7_persist_failed_distinct_witness :
    (Sys.mk .posix (fun _ => true) (fun _ => true) (some 7) false).javaResult = some 7
    ∧ (Sys.mk .posix (fun _ => true) (fun _ => true) (some 7) false).writeOk = false
    ∧ (mainRun (Sys.mk .posix (fun _ => true) (fun _ => true) (some 7) false)
        (FS.mk false "")).launched = true
    ∧ ((mainRun (Sys.mk .posix (fun _ => true) (fun _ => true) (some 7) false)
          (FS.mk false "")).outcome = .PersistFailed
       ∧ (mainRun (Sys.mk .posix (fun _ => true) (fun _ => true) (some 7) false)
          (FS.mk false "")).fs = FS.mk false ""
       ∧ Outcome.PersistFailed ≠ Outcome.LaunchFailed) :=
  ⟨rfl, rfl, by decide,
   c7_persist_failed_distinct _ _ 7 rfl rfl (by decide)⟩

/-- C8: the existing-instance check is read-only and idempotent: it leaves
the PID file's existence and content exactly as they were, and running it
again on the state it returns gives the same answer. -/
theorem c8_check_is_read_only (s : Sys) (fs : FS) :
    (checkExisting s fs).2 = fs
    ∧ checkExisting s (checkExisting s fs).2 = checkExisting s fs := by
  have h := checkExisting_snd s fs
  exact ⟨h, by rw [h]⟩

/-- C9: the script's exit status is zero exactly on the successful
`Recorded` outcome — `Refused`, `CorruptRecord`, `LaunchFailed` and
`PersistFailed` all exit non-zero — and every invocation prints at least
one human-readable line. -/
theorem c9_exit_status (s : Sys) (fs : FS) :
    (exitCode (mainRun s fs).outcome = 0
      ↔ ∃ p, (mainRun s fs).outcome = .Recorded p)
    ∧ 0 < (mainRun s fs).msgs.length := by
  rcases hc : checkExisting s fs with ⟨st, fs1⟩
  cases st with
  | Running pid => simp [mainRun, hc, exitCode]
  | CorruptRecord => simp [mainRun, hc, exitCode]
  | NoRecord =>
    cases hj : s.javaResult with
    | none => simp [mainRun, hc, launchPhase, hj, exitCode]
    | some q =>
      cases hw : s.writeOk <;> simp [mainRun, hc, launchPhase, hj, hw, exitCode]
  | Stale pid =>
    cases hj : s.javaResult with
    | none => simp [mainRun, hc, launchPhase, hj, exitCode]
    | some q =>
      cases hw : s.writeOk <;> simp [mainRun, hc, launchPhase, hj, hw, exitCode]

/-- C10: the PID-file content is stripped of leading and trailing
whitespace before being interpreted: the check's status on any content
equals its status on the stripped content, so "123\n" is treated as the
identifier 123 and not as a corrupt record. -/
theorem c10_content_stripped (s : Sys) (b : Bool) (c : String) :
    (checkExisting s ⟨b, c⟩).1 = (checkExisting s ⟨b, pyStrip c⟩).1
    ∧ pyInt (pyStrip "123\n") = some 123 := by
  refine ⟨?_, by decide⟩
  cases b with
  | false => rfl
  | true =>
    cases hpl : s.platform with
    | posix =>
      cases hpi : pyInt (pyStrip c) with
      | none => simp [checkExisting, readFile, pyStrip_idem, hpl, hpi]
      | some n =>
        cases hul : s.unixLive n <;>
          simp [checkExisting, readFile, pyStrip_idem, hpl, hpi, hul]
    | windows =>
      cases hwl : s.winLive (pyStrip c) <;>
        simp [checkExisting, readFile, pyStrip_idem, hpl, hwl]
    | other => simp [checkExisting, readFile, pyStrip_idem, hpl]

end AtlasStart
